import Mathlib

/-!
Verification development for a PostgREST-style HTTP client wrapper.

The embedding below translates the client module (`PostgrestClient`,
`fetchWithAuth`, `getFirst`, `setToken`, `createPostgrestClient`) and its
error module (`postgrestErrorSchema`, `PostgrestClientError`) into Lean.
The HTTP transport and the WHATWG URL parser are external collaborators:
the transport is modelled by passing the response as an explicit argument,
and the resolved URL is modelled as the stored base string, the cleaned
endpoint and the composed search-parameter list (the only URL failure the
claims exercise is the falsy-base check, which the code performs itself
before invoking the URL parser).
-/

set_option autoImplicit false

namespace Postgrest

/-- A JSON value, the shape of request payloads and response bodies. -/
inductive Json where
  | null : Json
  | bool : Bool → Json
  | num : Int → Json
  | str : String → Json
  | arr : List Json → Json
  | obj : List (String × Json) → Json

/-- Models `Array.isArray` on a decoded JSON value. -/
def Json.isArr : Json → Bool
  | .arr _ => true
  | _ => false

/-- The constant discriminant tag `POSTGREST_ERROR_TYPE = "POSTGREST_ERROR"`. -/
def POSTGREST_ERROR_TYPE : String := "POSTGREST_ERROR"

/-- The normalized server error envelope (`PostgrestErrorResponse`):
`message` and `code` are strings, `details` and `hint` are nullable strings. -/
structure PostgrestErrorResponse where
  message : String
  details : Option String
  hint : Option String
  code : String

/-- First value stored under key `k` in a JSON object's field list
(JS object keys are unique, so first = only). -/
def jLookup (fields : List (String × Json)) (k : String) : Option Json :=
  (fields.find? (fun p => p.1 = k)).map (fun p => p.2)

/-- Valibot `v.string()` applied to an optional field: present and a string. -/
def jString : Option Json → Option String
  | some (.str s) => some s
  | _ => none

/-- Valibot `v.nullable(v.string())` applied to an optional field: present and
either a string or JSON null. -/
def jNullableString : Option Json → Option (Option String)
  | some (.str s) => some (some s)
  | some .null => some none
  | _ => none

/-- Models `v.safeParse(postgrestErrorSchema, ·)`: succeeds exactly when the value
is an object whose `message` and `code` members are strings and whose
`details` and `hint` members are strings or null (extra members are
ignored, as `v.object` ignores unknown keys). -/
def parsePostgrestError : Json → Option PostgrestErrorResponse
  | .obj fields =>
      match jString (jLookup fields "message"), jNullableString (jLookup fields "details"),
            jNullableString (jLookup fields "hint"), jString (jLookup fields "code") with
      | some m, some d, some h, some c => some ⟨m, d, h, c⟩
      | _, _, _, _ => none
  | _ => none

/-- The `PostgrestClientError` class: discriminant tag, error name, HTTP
status, the envelope's message (used as the error's own message) and the
envelope's remaining fields. -/
structure PostgrestClientError where
  type : String
  errName : String
  status : Nat
  message : String
  details : Option String
  hint : Option String
  code : String

/-- The `PostgrestClientError` constructor: `super(errorData.message)`,
`this.name = "PostgrestClientError"`, then copy status/details/hint/code. -/
def PostgrestClientError.ofEnvelope (status : Nat) (errorData : PostgrestErrorResponse) :
    PostgrestClientError :=
  { type := POSTGREST_ERROR_TYPE
    errName := "PostgrestClientError"
    status := status
    message := errorData.message
    details := errorData.details
    hint := errorData.hint
    code := errorData.code }

/-- The distinct failure channels of the client, one per throw site:
`configError` for the wrapped URL-construction failure, `transportError`
for the non-2xx JSON-parse failure, `internalError` for a non-2xx body
that is not a valid envelope, `api` for a well-formed `PostgrestClientError`,
`validationError` for a schema rejection, `notFound` for `getFirst`'s
"No data found", and `bodyParseError` for a propagated native parse
failure on the success path. -/
inductive FetchError where
  | configError : String → FetchError
  | transportError : String → FetchError
  | internalError : String → FetchError
  | api : PostgrestClientError → FetchError
  | validationError : String → FetchError
  | notFound : String → FetchError
  | bodyParseError : FetchError

/-- A schema in the Standard Schema contract, abstracted to its observable
behaviour: validating a value either yields the validated value or a
serialized issue list. -/
def Schema : Type := Json → Except String Json

/-- Method `validateData`: run the schema; a reported issue list becomes an error
whose message is `Schema Validation Error: ` followed by the serialized
issues, otherwise the validated value is returned. -/
def validateData (schema : Schema) (value : Json) : Except FetchError Json :=
  match schema value with
  | .ok v => .ok v
  | .error issues => .error (.validationError ("Schema Validation Error: " ++ issues))

/-- Type `ParamValue = string | number | boolean | undefined | null`. -/
inductive ParamValue where
  | str : String → ParamValue
  | num : Int → ParamValue
  | bool : Bool → ParamValue
  | undef : ParamValue
  | null : ParamValue

/-- JS `String(value)` on a `ParamValue`. -/
def stringifyParam : ParamValue → String
  | .str s => s
  | .num n => toString n
  | .bool b => cond b "true" "false"
  | .undef => "undefined"
  | .null => "null"

/-- Tests `value === undefined || value === null`, the values the query builder skips. -/
def isNullish : ParamValue → Bool
  | .undef => true
  | .null => true
  | _ => false

/-- The query-composition loop of `fetchWithAuth`:
`Object.entries(params).forEach(([key, value]) => { if (value !== undefined
&& value !== null) url.searchParams.append(key, String(value)); })`. -/
def buildSearchParams (params : List (String × ParamValue)) : List (String × String) :=
  params.foldl
    (fun acc kv => if isNullish kv.2 then acc else acc ++ [(kv.1, stringifyParam kv.2)]) []

/-- Uppercase hexadecimal digit for percent-encoding. -/
def hexDigit (n : Nat) : Char :=
  if n < 10 then Char.ofNat (48 + n) else Char.ofNat (55 + n)

/-- UTF-8 bytes of a Unicode code point. -/
def utf8Bytes (n : Nat) : List Nat :=
  if n < 0x80 then [n]
  else if n < 0x800 then [0xC0 + n / 64, 0x80 + n % 64]
  else if n < 0x10000 then [0xE0 + n / 4096, 0x80 + n / 64 % 64, 0x80 + n % 64]
  else [0xF0 + n / 262144, 0x80 + n / 4096 % 64, 0x80 + n / 64 % 64, 0x80 + n % 64]

/-- Percent-encode one byte as `%XX`. -/
def percentByte (b : Nat) : String :=
  String.mk ['%', hexDigit (b / 16), hexDigit (b % 16)]

/-- One character under the `application/x-www-form-urlencoded` serializer
used by `URLSearchParams.toString()`: alphanumerics and `*`, `-`, `.`, `_`
pass through, space becomes `+`, everything else is percent-encoded
byte by byte. -/
def encodeChar (c : Char) : String :=
  if (c ≥ 'a' ∧ c ≤ 'z') ∨ (c ≥ 'A' ∧ c ≤ 'Z') ∨ (c ≥ '0' ∧ c ≤ '9')
      ∨ c = '*' ∨ c = '-' ∨ c = '.' ∨ c = '_' then
    String.singleton c
  else if c = ' ' then "+"
  else String.join ((utf8Bytes c.toNat).map percentByte)

/-- Form-urlencode a whole string. -/
def formEncode (s : String) : String :=
  String.join (s.data.map encodeChar)

/-- Serializer `URLSearchParams.toString()`: `k=v` pairs joined by `&`. -/
def renderQuery (pairs : List (String × String)) : String :=
  String.intercalate "&" (pairs.map (fun p => formEncode p.1 ++ "=" ++ formEncode p.2))

/-- Client state: the raw stored base (the constructor no longer parses it)
and the default bearer token, `none` modelling JS `null`. -/
structure PostgrestClient where
  baseURL : String
  defaultToken : Option String

/-- Factory `createPostgrestClient(baseURL, defaultToken)`: an `undefined` base is
replaced by `""` via `baseURL || ""` and the error is deferred to the
first `fetchWithAuth` call. -/
def createPostgrestClient (baseURL : Option String) (defaultToken : Option String) :
    PostgrestClient :=
  { baseURL := match baseURL with | none => "" | some s => s
    defaultToken := defaultToken }

/-- Method `setToken(token)`: replace the default credential in place. -/
def PostgrestClient.setToken (c : PostgrestClient) (token : Option String) : PostgrestClient :=
  { c with defaultToken := token }

/-- Per-call request options (`BaseRequestOptions` with `params` and `data`).
`token : Option (Option String)` distinguishes the field being absent
(`none`, JS `undefined`) from an explicit `null` (`some none`) and an
explicit string (`some (some s)`). `headers` are the passthrough
`fetchOptions.headers`. -/
structure RequestOptions where
  endpoint : String
  token : Option (Option String)
  schema : Option Schema
  params : Option (List (String × ParamValue))
  data : Option Json
  headers : List (String × String)

/-- ASCII lowercasing of one character, as applied to header names. -/
def lowerChar (c : Char) : Char :=
  if 'A' ≤ c ∧ c ≤ 'Z' then Char.ofNat (c.toNat + 32) else c

/-- ASCII lowercasing of a header name (header names are ASCII tokens). -/
def lowerName (s : String) : String :=
  String.mk (s.data.map lowerChar)

/-- Models `Headers.set(nm, v)`: header names are normalized to lowercase; an
existing entry is overwritten in place, otherwise the entry is appended.
Every header list the pipeline builds starts from `[]` and grows only
through this function, so its keys stay unique. -/
def headersSet : List (String × String) → String → String → List (String × String)
  | [], nm, v => [(lowerName nm, v)]
  | p :: hs, nm, v =>
      if p.1 = lowerName nm then (lowerName nm, v) :: hs else p :: headersSet hs nm v

/-- Models `new Headers(fetchOptions.headers || {})`: fold the passthrough record
into a normalized header list. -/
def headersInit (hs : List (String × String)) : List (String × String) :=
  hs.foldl (fun acc p => headersSet acc p.1 p.2) []

/-- Case-insensitive `Headers.has`-style lookup. -/
def hasHeader (hs : List (String × String)) (nm : String) : Bool :=
  hs.any (fun p => p.1 = lowerName nm)

/-- Case-insensitive `Headers.get`-style lookup. -/
def getHeader (hs : List (String × String)) (nm : String) : Option String :=
  (hs.find? (fun p => p.1 = lowerName nm)).map (fun p => p.2)

/-- Computes `const effectiveToken = token !== undefined ? token : this.defaultToken`. -/
def effectiveToken (c : PostgrestClient) (opts : RequestOptions) : Option String :=
  match opts.token with
  | some t => t
  | none => c.defaultToken

/-- Header composition of `fetchWithAuth`: start from the passthrough
headers, set `Authorization: Bearer <token>` when the effective token is
truthy (non-null and non-empty), then unconditionally set `Content-Type`
and `Accept` to `application/json`. -/
def buildHeaders (c : PostgrestClient) (opts : RequestOptions) : List (String × String) :=
  let hs := headersInit opts.headers
  let hs := match effectiveToken c opts with
    | some s => if s = "" then hs else headersSet hs "Authorization" ("Bearer " ++ s)
    | none => hs
  let hs := headersSet hs "Content-Type" "application/json"
  headersSet hs "Accept" "application/json"

/-- Performs `endpoint.replace(/^\//, "")`: strip one leading slash. -/
def cleanEndpoint (e : String) : String :=
  if e.startsWith "/" then e.drop 1 else e

/-- The request handed to the transport: method, the base the URL was
resolved against, the cleaned endpoint path, the composed search
parameters, the final headers, and the JSON payload (serialized at the
transport boundary) when one was supplied. -/
structure HttpRequest where
  method : String
  urlBase : String
  urlPath : String
  query : List (String × String)
  headers : List (String × String)
  body : Option Json

/-- The request-construction half of `fetchWithAuth` (steps before the
`fetch` call): a falsy stored base makes the guarded `new URL` block throw
`Base URL is not defined`, which the surrounding catch rewraps into the
`Failed to construct URL (base: ..., endpoint: ...)` message; otherwise
the URL is resolved from the base and the cleaned endpoint, the
non-nullish params are appended to its query, and the headers are
composed. -/
def buildRequest (c : PostgrestClient) (method : String) (opts : RequestOptions) :
    Except FetchError HttpRequest :=
  if c.baseURL = "" then
    .error (.configError
      ("Failed to construct URL (base: " ++ c.baseURL ++ ", endpoint: " ++ opts.endpoint
        ++ "): Base URL is not defined"))
  else
    .ok { method := method
          urlBase := c.baseURL
          urlPath := cleanEndpoint opts.endpoint
          query := buildSearchParams (match opts.params with | some ps => ps | none => [])
          headers := buildHeaders c opts
          body := opts.data }

/-- Models `response.ok`: status in the 200-299 range. -/
def responseOk (status : Nat) : Bool :=
  decide (200 ≤ status ∧ status ≤ 299)

/-- A transport response: the status code, and the body's JSON decoding
(`none` when `response.json()` would fail). -/
structure HttpResponse where
  status : Nat
  jsonBody : Option Json

/-- The response-classification half of `fetchWithAuth` (steps after the
`fetch` call): on a non-ok status, a body that fails to parse throws
`HTTP Error <status>: Failed to parse JSON error response`; a parsed body
that is not a valid envelope throws `Internal Client Error: Invalid error
format from server (<status>)`; a valid envelope becomes a
`PostgrestClientError`. Status 204 or 202 returns null without touching
the body. Any other ok status parses the body and, when a schema was
supplied, validates it. -/
def handleResponse (schema : Option Schema) (r : HttpResponse) : Except FetchError Json :=
  if responseOk r.status = false then
    match r.jsonBody with
    | none =>
        .error (.transportError
          ("HTTP Error " ++ toString r.status ++ ": Failed to parse JSON error response"))
    | some j =>
        match parsePostgrestError j with
        | none =>
            .error (.internalError
              ("Internal Client Error: Invalid error format from server ("
                ++ toString r.status ++ ")"))
        | some env => .error (.api (PostgrestClientError.ofEnvelope r.status env))
  else if r.status = 204 ∨ r.status = 202 then
    .ok .null
  else
    match r.jsonBody with
    | none => .error .bodyParseError
    | some j =>
        match schema with
        | none => .ok j
        | some sch => validateData sch j

/-- Pipeline `fetchWithAuth(method, options)` with the transport's response passed
explicitly: build the request (the pipeline's only failure before the
transport call), then classify the response. -/
def fetchWithAuth (c : PostgrestClient) (method : String) (opts : RequestOptions)
    (resp : HttpResponse) : Except FetchError Json :=
  match buildRequest c method opts with
  | .error e => .error e
  | .ok _ => handleResponse opts.schema resp

/-- JS object spread update `{ ...m, k: v }`: if `k` is already a key its
value is overwritten in place, otherwise `k: v` is appended after the
existing entries. -/
def spreadSet : List (String × ParamValue) → String → ParamValue →
    List (String × ParamValue)
  | [], k, v => [(k, v)]
  | p :: m, k, v => if p.1 = k then (k, v) :: m else p :: spreadSet m k v

/-- Merged parameter map of `getFirst`:
`const baseParams = options.params || {}; const allParams = { ...baseParams, limit: "1" }`. -/
def getFirstParams (opts : RequestOptions) : List (String × ParamValue) :=
  spreadSet (match opts.params with | some ps => ps | none => []) "limit" (.str "1")

/-- The options `getFirst` forwards to `fetchWithAuth`: the caller's
options with the merged params and `schema: undefined`. -/
def getFirstOptions (opts : RequestOptions) : RequestOptions :=
  { opts with params := some (getFirstParams opts), schema := none }

/-- Operation `getFirst(options)`: issue the GET through `fetchWithAuth` with
`limit: "1"` merged and no schema; if the result is a non-empty array,
return its first element (validated through the caller's schema when one
was supplied), otherwise throw `No data found`. -/
def getFirst (c : PostgrestClient) (opts : RequestOptions) (resp : HttpResponse) :
    Except FetchError Json :=
  match fetchWithAuth c "GET" (getFirstOptions opts) resp with
  | .error e => .error e
  | .ok d =>
      match d with
      | .arr (x :: _) =>
          match opts.schema with
          | some sch => validateData sch x
          | none => .ok x
      | _ => .error (.notFound "No data found")

/-- The entry transformation the query loop performs, used to specify it:
nullish values are dropped, others are stringified. -/
def stringifyEntry (kv : String × ParamValue) : Option (String × String) :=
  if isNullish kv.2 then none else some (kv.1, stringifyParam kv.2)

def sampleOpts : RequestOptions :=
  { endpoint := "/users", token := none, schema := none, params := none,
    data := none, headers := [] }

def sampleClient : PostgrestClient :=
  { baseURL := "https://api.example.com", defaultToken := some "secret" }

def sampleResp : HttpResponse := { status := 200, jsonBody := some Json.null }

def sampleEnvelope : PostgrestErrorResponse :=
  { message := "relation does not exist", details := none, hint := none, code := "42P01" }

def sampleEnvelopeJson : Json :=
  Json.obj [("message", .str "relation does not exist"), ("details", .null),
    ("hint", .null), ("code", .str "42P01")]

def sampleParams : List (String × ParamValue) :=
  [("select", .str "*"), ("offset", .undef), ("flag", .null), ("active", .bool true),
    ("n", .num 5)]

def sampleSelectOpts : RequestOptions :=
  { endpoint := "/users", token := none, schema := none,
    params := some [("select", ParamValue.str "*")], data := none, headers := [] }

def cexClient : PostgrestClient :=
  { baseURL := "https://api.example.com", defaultToken := some "default-token" }

def cexOptions : RequestOptions :=
  { endpoint := "/users", token := some none, schema := none, params := none,
    data := none, headers := [("Authorization", "Bearer sneak")] }

def cleanNullTokenOpts : RequestOptions :=
  { endpoint := "/users", token := some none, schema := none, params := none,
    data := none, headers := [] }

def cex9Client : PostgrestClient :=
  { baseURL := "https://api.example.com", defaultToken := some "old-token" }

def cex9Options : RequestOptions :=
  { endpoint := "/users", token := none, schema := none, params := none,
    data := none, headers := [("Authorization", "Bearer stale")] }



theorem buildSearchParams_foldl (ps : List (String × ParamValue))
    (acc : List (String × String)) :
    ps.foldl
      (fun a kv => if isNullish kv.2 then a else a ++ [(kv.1, stringifyParam kv.2)]) acc
      = acc ++ ps.filterMap stringifyEntry := by
  induction ps generalizing acc with
  | nil => simp
  | cons p ps ih =>
      cases hp : isNullish p.2 <;>
        simp [List.foldl, hp, ih, stringifyEntry, List.filterMap_cons]

theorem buildSearchParams_eq (ps : List (String × ParamValue)) :
    buildSearchParams ps = ps.filterMap stringifyEntry := by
  simpa using buildSearchParams_foldl ps []

theorem key_mem_of_mem_filterMap (ps : List (String × ParamValue))
    (q : String × String) (hq : q ∈ ps.filterMap stringifyEntry) :
    q.1 ∈ ps.map Prod.fst := by
  rcases List.mem_filterMap.mp hq with ⟨a, ha, hfa⟩
  have : q.1 = a.1 := by
    unfold stringifyEntry at hfa
    by_cases h : isNullish a.2 = true
    · simp [h] at hfa
    · simp [h] at hfa
      cases hfa
      rfl
  rw [this]
  exact List.mem_map_of_mem Prod.fst ha

theorem filter_filterMap_not_mem (ps : List (String × ParamValue)) (k : String)
    (hk : k ∉ ps.map Prod.fst) :
    (ps.filterMap stringifyEntry).filter (fun q => q.1 = k) = [] := by
  rw [List.filter_eq_nil_iff]
  intro q hq
  simp only [decide_eq_true_eq]
  intro hqk
  exact hk (hqk ▸ key_mem_of_mem_filterMap ps q hq)

theorem filter_key (ps : List (String × ParamValue)) (k : String) (v : ParamValue)
    (hmem : (k, v) ∈ ps) (hnd : (ps.map Prod.fst).Nodup) :
    (ps.filterMap stringifyEntry).filter (fun q => q.1 = k)
      = if isNullish v then [] else [(k, stringifyParam v)] := by
  induction ps with
  | nil => cases hmem
  | cons p ps ih =>
      rw [List.map_cons, List.nodup_cons] at hnd
      rcases List.mem_cons.mp hmem with heq | htail
      · subst heq
        cases hv : isNullish v with
        | true =>
            have hfm : List.filterMap stringifyEntry ((k, v) :: ps)
                = List.filterMap stringifyEntry ps := by
              rw [List.filterMap_cons]
              simp [stringifyEntry, hv]
            rw [hfm]
            simpa using filter_filterMap_not_mem ps k hnd.1
        | false =>
            have hfm : List.filterMap stringifyEntry ((k, v) :: ps)
                = (k, stringifyParam v) :: List.filterMap stringifyEntry ps := by
              rw [List.filterMap_cons]
              simp [stringifyEntry, hv]
            have htl := filter_filterMap_not_mem ps k hnd.1
            rw [hfm, List.filter_cons]
            simp [htl]
      · have hkp : p.1 ≠ k := by
          intro h
          exact hnd.1 (h ▸ List.mem_map_of_mem Prod.fst htail)
        cases hp : isNullish p.2 with
        | true =>
            have hfm : List.filterMap stringifyEntry (p :: ps)
                = List.filterMap stringifyEntry ps := by
              rw [List.filterMap_cons]
              simp [stringifyEntry, hp]
            rw [hfm]
            exact ih htail hnd.2
        | false =>
            have hfm : List.filterMap stringifyEntry (p :: ps)
                = (p.1, stringifyParam p.2) :: List.filterMap stringifyEntry ps := by
              rw [List.filterMap_cons]
              simp [stringifyEntry, hp]
            rw [hfm, List.filter_cons]
            simp only [decide_eq_true_eq]
            rw [if_neg hkp]
            exact ih htail hnd.2


theorem getHeader_headersSet_self (hs : List (String × String)) (nm v : String) :
    getHeader (headersSet hs nm v) nm = some v := by
  induction hs with
  | nil => simp [headersSet, getHeader]
  | cons p hs ih =>
      by_cases h : p.1 = lowerName nm
      · simp [headersSet, h, getHeader]
      · simp only [headersSet, if_neg h, getHeader] at ih ⊢
        rw [List.find?_cons_of_neg _ (by simpa using h)]
        exact ih

theorem getHeader_headersSet_ne (hs : List (String × String)) (n m v : String)
    (hne : lowerName n ≠ lowerName m) :
    getHeader (headersSet hs m v) n = getHeader hs n := by
  induction hs with
  | nil =>
      simp [headersSet, getHeader]
      exact fun h => absurd h.symm hne
  | cons p hs ih =>
      by_cases h : p.1 = lowerName m
      · simp only [headersSet, if_pos h, getHeader]
        rw [List.find?_cons_of_neg _ (by simpa using fun hh => hne hh.symm),
          List.find?_cons_of_neg _ (by simp [h]; exact fun hh => hne hh.symm)]
      · simp only [headersSet, if_neg h, getHeader] at ih ⊢
        by_cases hpn : p.1 = lowerName n
        · rw [List.find?_cons_of_pos _ (by simpa using hpn),
            List.find?_cons_of_pos _ (by simpa using hpn)]
        · rw [List.find?_cons_of_neg _ (by simpa using hpn),
            List.find?_cons_of_neg _ (by simpa using hpn)]
          exact ih

theorem hasHeader_headersSet_ne (hs : List (String × String)) (n m v : String)
    (hne : lowerName n ≠ lowerName m) :
    hasHeader (headersSet hs m v) n = hasHeader hs n := by
  induction hs with
  | nil =>
      simp [headersSet, hasHeader]
      exact fun h => absurd h.symm hne
  | cons p hs ih =>
      by_cases h : p.1 = lowerName m
      · simp only [headersSet, if_pos h, hasHeader, List.any_cons]
        have h1 : (lowerName m = lowerName n) = False := by
          simp
          exact fun hh => hne hh.symm
        have h2 : (p.1 = lowerName n) = False := by
          simp [h]
          exact fun hh => hne hh.symm
        simp [h1, h2]
      · simp only [headersSet, if_neg h, hasHeader, List.any_cons] at ih ⊢
        rw [ih]


theorem lowerName_auth_ne_ct : lowerName "Authorization" ≠ lowerName "Content-Type" := by
  decide

theorem lowerName_auth_ne_accept : lowerName "Authorization" ≠ lowerName "Accept" := by
  decide

theorem buildHeaders_no_auth (c : PostgrestClient) (opts : RequestOptions)
    (heff : effectiveToken c opts = none)
    (hclean : hasHeader (headersInit opts.headers) "Authorization" = false) :
    hasHeader (buildHeaders c opts) "Authorization" = false := by
  unfold buildHeaders
  rw [heff]
  rw [hasHeader_headersSet_ne _ _ _ _ lowerName_auth_ne_accept,
    hasHeader_headersSet_ne _ _ _ _ lowerName_auth_ne_ct]
  exact hclean

theorem buildHeaders_bearer (c : PostgrestClient) (opts : RequestOptions) (s : String)
    (heff : effectiveToken c opts = some s) (hs : s ≠ "") :
    getHeader (buildHeaders c opts) "Authorization" = some ("Bearer " ++ s) := by
  unfold buildHeaders
  rw [heff]
  simp only [if_neg hs]
  rw [getHeader_headersSet_ne _ _ _ _ lowerName_auth_ne_accept,
    getHeader_headersSet_ne _ _ _ _ lowerName_auth_ne_ct,
    getHeader_headersSet_self]


theorem fetch_no_content (c : PostgrestClient) (m : String) (opts : RequestOptions)
    (s : Nat) (hbase : c.baseURL ≠ "") (hs : s = 204 ∨ s = 202) (body : Option Json) :
    fetchWithAuth c m opts { status := s, jsonBody := body } = .ok Json.null := by
  rcases hs with h | h <;> subst h <;>
    simp [fetchWithAuth, buildRequest, hbase, handleResponse, responseOk]

theorem fetch_200_raw (c : PostgrestClient) (opts : RequestOptions) (j : Json)
    (hbase : c.baseURL ≠ "") (hsch : opts.schema = none) :
    fetchWithAuth c "GET" opts { status := 200, jsonBody := some j } = .ok j := by
  simp [fetchWithAuth, buildRequest, hbase, handleResponse, responseOk, hsch]

theorem mem_spreadSet_self (m : List (String × ParamValue)) (k : String) (v : ParamValue) :
    (k, v) ∈ spreadSet m k v := by
  induction m with
  | nil => simp [spreadSet]
  | cons p m ih =>
      by_cases h : p.1 = k
      · simp [spreadSet, h]
      · simp only [spreadSet, if_neg h]
        exact List.mem_cons_of_mem p ih

theorem mem_spreadSet_of_ne (m : List (String × ParamValue)) (k : String) (v : ParamValue)
    (k' : String) (v' : ParamValue) (hne : k' ≠ k) (hm : (k', v') ∈ m) :
    (k', v') ∈ spreadSet m k v := by
  induction m with
  | nil => cases hm
  | cons p m ih =>
      by_cases h : p.1 = k
      · simp only [spreadSet, if_pos h]
        rcases List.mem_cons.mp hm with heq | htail
        · exact absurd (by rw [← heq] at h; exact h) hne
        · exact List.mem_cons_of_mem _ htail
      · simp only [spreadSet, if_neg h]
        rcases List.mem_cons.mp hm with heq | htail
        · exact heq ▸ List.mem_cons_self p (spreadSet m k v)
        · exact List.mem_cons_of_mem p (ih htail)

theorem keys_spreadSet (m : List (String × ParamValue)) (k : String) (v : ParamValue) :
    (spreadSet m k v).map Prod.fst =
      if k ∈ m.map Prod.fst then m.map Prod.fst else m.map Prod.fst ++ [k] := by
  induction m with
  | nil => simp [spreadSet]
  | cons p m ih =>
      by_cases h : p.1 = k
      · simp [spreadSet, h]
      · by_cases hk : k ∈ m.map Prod.fst
        · simp [spreadSet, h, ih, hk, Ne.symm h]
        · simp [spreadSet, h, ih, hk, Ne.symm h]

theorem nodup_keys_spreadSet (m : List (String × ParamValue)) (k : String) (v : ParamValue)
    (hnd : (m.map Prod.fst).Nodup) : ((spreadSet m k v).map Prod.fst).Nodup := by
  rw [keys_spreadSet]
  by_cases hk : k ∈ m.map Prod.fst
  · rw [if_pos hk]; exact hnd
  · rw [if_neg hk]
    simp [List.nodup_append, hnd, hk]



/-- C1: the constructor stores the base verbatim and never fails, even on an
empty base; the failure is deferred to the first pipeline call, which
errors with the configuration message naming the undefined base URL. -/
theorem claim1_constructor_defers_base_check
    (m : String) (opts : RequestOptions) (resp : HttpResponse)
    (c : PostgrestClient) (hbase : c.baseURL = "") :
    (∀ base dtok, (PostgrestClient.mk base dtok).baseURL = base ∧
        (PostgrestClient.mk base dtok).defaultToken = dtok) ∧
    (∀ dtok, (createPostgrestClient none dtok).baseURL = "") ∧
    fetchWithAuth c m opts resp =
      .error (.configError ("Failed to construct URL (base: " ++ c.baseURL
        ++ ", endpoint: " ++ opts.endpoint ++ "): Base URL is not defined")) := by
  refine ⟨fun base dtok => ⟨rfl, rfl⟩, fun dtok => rfl, ?_⟩
  simp [fetchWithAuth, buildRequest, hbase]

theorem claim1_witness :
    (PostgrestClient.mk "" none).baseURL = "" ∧
    fetchWithAuth (PostgrestClient.mk "" none) "GET" sampleOpts sampleResp =
      .error (.configError ("Failed to construct URL (base: "
        ++ (PostgrestClient.mk "" none).baseURL
        ++ ", endpoint: " ++ sampleOpts.endpoint ++ "): Base URL is not defined")) :=
  ⟨rfl,
   (claim1_constructor_defers_base_check "GET" sampleOpts sampleResp
      (PostgrestClient.mk "" none) rfl).2.2⟩

/-- C2: in any issued request, parameters with nullish values are dropped
from the query and every other parameter appears exactly once, stringified,
in the map's iteration order. -/
theorem claim2_params_filtering
    (ps : List (String × ParamValue)) (hnd : (ps.map Prod.fst).Nodup) :
    (∀ (c : PostgrestClient) (m : String) (opts : RequestOptions) (req : HttpRequest),
        opts.params = some ps → buildRequest c m opts = .ok req →
        req.query = ps.filterMap stringifyEntry) ∧
    (∀ k v, (k, v) ∈ ps → isNullish v = true →
        (buildSearchParams ps).filter (fun q => q.1 = k) = []) ∧
    (∀ k v, (k, v) ∈ ps → isNullish v = false →
        (buildSearchParams ps).filter (fun q => q.1 = k) = [(k, stringifyParam v)]) := by
  refine ⟨?_, ?_, ?_⟩
  · intro c m opts req hps hreq
    unfold buildRequest at hreq
    by_cases hb : c.baseURL = ""
    · rw [if_pos hb] at hreq
      cases hreq
    · rw [if_neg hb] at hreq
      injection hreq with h
      rw [← h]
      simp [hps, buildSearchParams_eq]
  · intro k v hm hv
    rw [buildSearchParams_eq, filter_key ps k v hm hnd, if_pos hv]
  · intro k v hm hv
    rw [buildSearchParams_eq, filter_key ps k v hm hnd, if_neg (by simp [hv])]

theorem claim2_witness :
    (sampleParams.map Prod.fst).Nodup ∧
    (buildSearchParams sampleParams).filter (fun q => q.1 = "offset") = [] ∧
    (buildSearchParams sampleParams).filter (fun q => q.1 = "active")
      = [("active", "true")] :=
  ⟨by decide,
   (claim2_params_filtering sampleParams (by decide)).2.1 "offset" .undef
     (by simp [sampleParams]) rfl,
   (claim2_params_filtering sampleParams (by decide)).2.2 "active" (.bool true)
     (by simp [sampleParams]) rfl⟩

/-- C4: a non-2xx response whose body parses as an error envelope rejects
with a client error mirroring the envelope, and reading back the fields of
an error built from envelope E and status S reproduces E and S exactly. -/
theorem claim4_error_envelope_mirror
    (c : PostgrestClient) (m : String) (opts : RequestOptions) (s : Nat) (j : Json)
    (env : PostgrestErrorResponse) (hbase : c.baseURL ≠ "")
    (hok : responseOk s = false) (henv : parsePostgrestError j = some env) :
    fetchWithAuth c m opts { status := s, jsonBody := some j } =
      .error (.api (PostgrestClientError.ofEnvelope s env)) ∧
    (PostgrestClientError.ofEnvelope s env).status = s ∧
    (PostgrestClientError.ofEnvelope s env).message = env.message ∧
    (PostgrestClientError.ofEnvelope s env).details = env.details ∧
    (PostgrestClientError.ofEnvelope s env).hint = env.hint ∧
    (PostgrestClientError.ofEnvelope s env).code = env.code := by
  refine ⟨?_, rfl, rfl, rfl, rfl, rfl⟩
  simp [fetchWithAuth, buildRequest, hbase, handleResponse, hok, henv]

theorem claim4_witness :
    responseOk 404 = false ∧
    parsePostgrestError sampleEnvelopeJson = some sampleEnvelope ∧
    fetchWithAuth sampleClient "GET" sampleOpts
        { status := 404, jsonBody := some sampleEnvelopeJson } =
      .error (.api (PostgrestClientError.ofEnvelope 404 sampleEnvelope)) :=
  ⟨rfl, rfl,
   (claim4_error_envelope_mirror sampleClient "GET" sampleOpts 404 sampleEnvelopeJson
      sampleEnvelope (by decide) rfl rfl).1⟩

/-- C5: getFirst merges limit=1 after the caller's parameters, overwriting
any caller-supplied limit, keeping all other caller parameters; with caller
params select=* the query string is select=*&limit=1. -/
theorem claim5_getFirst_limit_merge
    (ps : List (String × ParamValue)) (opts : RequestOptions)
    (hps : opts.params = some ps) (hnd : (ps.map Prod.fst).Nodup) :
    (buildSearchParams (getFirstParams opts)).filter (fun q => q.1 = "limit")
        = [("limit", "1")] ∧
    (∀ k v, (k, v) ∈ ps → k ≠ "limit" → isNullish v = false →
        (buildSearchParams (getFirstParams opts)).filter (fun q => q.1 = k)
          = [(k, stringifyParam v)]) ∧
    (∀ k v, (k, v) ∈ ps → k ≠ "limit" → isNullish v = true →
        (buildSearchParams (getFirstParams opts)).filter (fun q => q.1 = k) = []) ∧
    renderQuery (buildSearchParams (getFirstParams sampleSelectOpts))
        = "select=*&limit=1" := by
  have hgf : getFirstParams opts = spreadSet ps "limit" (.str "1") := by
    simp [getFirstParams, hps]
  have hnd' : ((spreadSet ps "limit" (ParamValue.str "1")).map Prod.fst).Nodup :=
    nodup_keys_spreadSet ps "limit" (.str "1") hnd
  refine ⟨?_, ?_, ?_, rfl⟩
  · rw [hgf, buildSearchParams_eq,
      filter_key _ "limit" (.str "1") (mem_spreadSet_self ps "limit" (.str "1")) hnd']
    rfl
  · intro k v hm hk hv
    rw [hgf, buildSearchParams_eq,
      filter_key _ k v (mem_spreadSet_of_ne ps "limit" (.str "1") k v hk hm) hnd',
      if_neg (by simp [hv])]
  · intro k v hm hk hv
    rw [hgf, buildSearchParams_eq,
      filter_key _ k v (mem_spreadSet_of_ne ps "limit" (.str "1") k v hk hm) hnd',
      if_pos hv]

theorem claim5_witness :
    sampleSelectOpts.params = some [("select", ParamValue.str "*")] ∧
    (buildSearchParams (getFirstParams sampleSelectOpts)).filter
        (fun q => q.1 = "limit") = [("limit", "1")] ∧
    renderQuery (buildSearchParams (getFirstParams sampleSelectOpts))
        = "select=*&limit=1" :=
  ⟨rfl,
   (claim5_getFirst_limit_merge [("select", ParamValue.str "*")] sampleSelectOpts
      rfl (by decide)).1,
   (claim5_getFirst_limit_merge [("select", ParamValue.str "*")] sampleSelectOpts
      rfl (by decide)).2.2.2⟩

/-- C7: a 204 or 202 response resolves to null regardless of the body and
of any supplied schema; the body is never parsed. -/
theorem claim7_no_content_statuses
    (c : PostgrestClient) (m : String) (opts : RequestOptions) (s : Nat)
    (hbase : c.baseURL ≠ "") (hs : s = 204 ∨ s = 202) :
    ∀ body : Option Json,
      fetchWithAuth c m opts { status := s, jsonBody := body } = .ok Json.null :=
  fun body => fetch_no_content c m opts s hbase hs body

theorem claim7_witness :
    fetchWithAuth sampleClient "DELETE" sampleOpts
        { status := 204, jsonBody := some (Json.str "ignored") } = .ok Json.null :=
  claim7_no_content_statuses sampleClient "DELETE" sampleOpts 204 (by decide)
    (Or.inl rfl) (some (Json.str "ignored"))

/-- C8: a non-2xx response with an unparseable body rejects with the
transport error naming the status; a parseable body that is not an
envelope rejects with the internal error naming the status, a kind
distinct from the client-error kind. -/
theorem claim8_malformed_error_bodies
    (c : PostgrestClient) (m : String) (opts : RequestOptions) (s : Nat)
    (hbase : c.baseURL ≠ "") (hok : responseOk s = false) :
    fetchWithAuth c m opts { status := s, jsonBody := none } =
      .error (.transportError
        ("HTTP Error " ++ toString s ++ ": Failed to parse JSON error response")) ∧
    (∀ j : Json, parsePostgrestError j = none →
      fetchWithAuth c m opts { status := s, jsonBody := some j } =
        .error (.internalError
          ("Internal Client Error: Invalid error format from server ("
            ++ toString s ++ ")"))) ∧
    (∀ (msg : String) (e : PostgrestClientError),
        FetchError.internalError msg ≠ FetchError.api e) ∧
    (∀ (msg : String) (e : PostgrestClientError),
        FetchError.transportError msg ≠ FetchError.api e) := by
  refine ⟨?_, ?_, ?_, ?_⟩
  · simp [fetchWithAuth, buildRequest, hbase, handleResponse, hok]
  · intro j hj
    simp [fetchWithAuth, buildRequest, hbase, handleResponse, hok, hj]
  · intro msg e h
    exact FetchError.noConfusion h
  · intro msg e h
    exact FetchError.noConfusion h

theorem claim8_witness :
    responseOk 500 = false ∧
    fetchWithAuth sampleClient "GET" sampleOpts { status := 500, jsonBody := none } =
      .error (.transportError
        ("HTTP Error " ++ toString 500 ++ ": Failed to parse JSON error response")) ∧
    fetchWithAuth sampleClient "GET" sampleOpts
        { status := 500, jsonBody := some (Json.str "oops") } =
      .error (.internalError
        ("Internal Client Error: Invalid error format from server ("
          ++ toString 500 ++ ")")) :=
  ⟨rfl,
   (claim8_malformed_error_bodies sampleClient "GET" sampleOpts 500 (by decide) rfl).1,
   (claim8_malformed_error_bodies sampleClient "GET" sampleOpts 500 (by decide) rfl).2.1
     (Json.str "oops") rfl⟩

/-- C6: getFirst on a non-empty array resolves to its first element,
validated through the caller's schema when one was supplied and raw
otherwise; on an empty array or a non-array it rejects with the not-found
error "No data found". -/
theorem claim6_getFirst_unwrap
    (c : PostgrestClient) (opts : RequestOptions) (hbase : c.baseURL ≠ "") :
    (∀ x xs, opts.schema = none →
        getFirst c opts { status := 200, jsonBody := some (Json.arr (x :: xs)) }
          = .ok x) ∧
    (∀ x xs sch, opts.schema = some sch →
        getFirst c opts { status := 200, jsonBody := some (Json.arr (x :: xs)) }
          = validateData sch x) ∧
    (getFirst c opts { status := 200, jsonBody := some (Json.arr []) }
        = .error (.notFound "No data found")) ∧
    (∀ j : Json, j.isArr = false →
        getFirst c opts { status := 200, jsonBody := some j }
          = .error (.notFound "No data found")) := by
  refine ⟨?_, ?_, ?_, ?_⟩
  · intro x xs hsch
    have hf := fetch_200_raw c (getFirstOptions opts) (Json.arr (x :: xs)) hbase rfl
    simp [getFirst, hf, hsch]
  · intro x xs sch hsch
    have hf := fetch_200_raw c (getFirstOptions opts) (Json.arr (x :: xs)) hbase rfl
    simp [getFirst, hf, hsch]
  · have hf := fetch_200_raw c (getFirstOptions opts) (Json.arr []) hbase rfl
    simp [getFirst, hf]
  · intro j hj
    have hf := fetch_200_raw c (getFirstOptions opts) j hbase rfl
    cases j with
    | arr l => simp [Json.isArr] at hj
    | null => simp [getFirst, hf]
    | bool b => simp [getFirst, hf]
    | num n => simp [getFirst, hf]
    | str ss => simp [getFirst, hf]
    | obj fs => simp [getFirst, hf]

theorem claim6_witness :
    getFirst sampleClient sampleOpts
        { status := 200, jsonBody := some (Json.arr [Json.obj [("id", Json.num 1)]]) }
      = .ok (Json.obj [("id", Json.num 1)]) ∧
    getFirst sampleClient sampleOpts
        { status := 200, jsonBody := some (Json.arr []) }
      = .error (.notFound "No data found") :=
  ⟨(claim6_getFirst_unwrap sampleClient sampleOpts (by decide)).1
     (Json.obj [("id", Json.num 1)]) [] rfl,
   (claim6_getFirst_unwrap sampleClient sampleOpts (by decide)).2.2.1⟩

/-- C10: when getFirst's underlying GET receives a 204 or 202 response,
the pipeline's null result is not a non-empty array, so getFirst rejects
with the not-found error instead of resolving to null. -/
theorem claim10_getFirst_no_content_not_found
    (c : PostgrestClient) (opts : RequestOptions) (s : Nat) (body : Option Json)
    (hbase : c.baseURL ≠ "") (hs : s = 204 ∨ s = 202) :
    getFirst c opts { status := s, jsonBody := body } =
      .error (.notFound "No data found") := by
  have hf := fetch_no_content c "GET" (getFirstOptions opts) s hbase hs body
  simp [getFirst, hf]

theorem claim10_witness :
    getFirst sampleClient sampleOpts { status := 204, jsonBody := none } =
      .error (.notFound "No data found") :=
  claim10_getFirst_no_content_not_found sampleClient sampleOpts 204 none
    (by decide) (Or.inl rfl)

/-- C9 counterexample: after setToken(null), a subsequent call that does
not override the token but carries a caller-supplied Authorization
passthrough header still sends an Authorization header, so the claim's
"sends no Authorization header when the new value is null" fails as
stated. -/
theorem claim9_counterexample :
    cex9Options.token = none ∧
    (cex9Client.setToken none).defaultToken = none ∧
    hasHeader (buildHeaders (cex9Client.setToken none) cex9Options)
        "Authorization" = true := by
  refine ⟨rfl, rfl, ?_⟩
  decide

/-- C9 amended: setToken replaces only the default credential: the base is
unchanged, later calls that leave the token field undefined use the new
credential, a null new credential yields no Authorization header when the
passthrough headers carry none, and a non-empty one yields a Bearer
header. -/
theorem claim9_setToken_frame (c : PostgrestClient) (t : Option String) :
    (c.setToken t).baseURL = c.baseURL ∧
    (c.setToken t).defaultToken = t ∧
    (∀ opts : RequestOptions, opts.token = none →
        effectiveToken (c.setToken t) opts = t) ∧
    (∀ opts : RequestOptions, opts.token = none → t = none →
        hasHeader (headersInit opts.headers) "Authorization" = false →
        hasHeader (buildHeaders (c.setToken t) opts) "Authorization" = false) ∧
    (∀ (opts : RequestOptions) (s : String), opts.token = none → t = some s → s ≠ "" →
        getHeader (buildHeaders (c.setToken t) opts) "Authorization"
          = some ("Bearer " ++ s)) := by
  refine ⟨rfl, rfl, ?_, ?_, ?_⟩
  · intro opts h
    simp [effectiveToken, h, PostgrestClient.setToken]
  · intro opts h ht hc
    exact buildHeaders_no_auth _ _
      (by simp [effectiveToken, h, PostgrestClient.setToken, ht]) hc
  · intro opts s h ht hs
    exact buildHeaders_bearer _ _ s
      (by simp [effectiveToken, h, PostgrestClient.setToken, ht]) hs

theorem claim9_witness :
    (sampleClient.setToken (some "newtok")).baseURL = sampleClient.baseURL ∧
    (sampleClient.setToken (some "newtok")).defaultToken = some "newtok" ∧
    getHeader (buildHeaders (sampleClient.setToken (some "newtok")) sampleOpts)
        "Authorization" = some ("Bearer " ++ "newtok") :=
  ⟨(claim9_setToken_frame sampleClient (some "newtok")).1,
   (claim9_setToken_frame sampleClient (some "newtok")).2.1,
   (claim9_setToken_frame sampleClient (some "newtok")).2.2.2.2 sampleOpts "newtok"
     rfl rfl (by decide)⟩


/-- C3 counterexample: with an explicit null token but a caller-supplied
Authorization passthrough header, the issued request does carry an
Authorization header, so the claim's "no Authorization header is present"
fails as stated. -/
theorem claim3_counterexample :
    cexOptions.token = some none ∧
    cexClient.defaultToken = some "default-token" ∧
    hasHeader (buildHeaders cexClient cexOptions) "Authorization" = true := by
  refine ⟨rfl, rfl, ?_⟩
  decide

/-- C3 amended: when the passthrough headers carry no Authorization entry,
an explicit null token means the issued request has no Authorization
header even with a default credential; an undefined token field falls back
to the default credential; a non-empty effective credential yields
Authorization: Bearer credential. -/
theorem claim3_token_resolution
    (c : PostgrestClient) (opts : RequestOptions)
    (hclean : hasHeader (headersInit opts.headers) "Authorization" = false) :
    (opts.token = some none → hasHeader (buildHeaders c opts) "Authorization" = false) ∧
    (opts.token = none → effectiveToken c opts = c.defaultToken) ∧
    (∀ s : String, effectiveToken c opts = some s → s ≠ "" →
        getHeader (buildHeaders c opts) "Authorization" = some ("Bearer " ++ s)) := by
  refine ⟨?_, ?_, ?_⟩
  · intro h
    exact buildHeaders_no_auth _ _ (by simp [effectiveToken, h]) hclean
  · intro h
    simp [effectiveToken, h]
  · intro s h hs
    exact buildHeaders_bearer _ _ s h hs

theorem claim3_witness :
    hasHeader (headersInit cleanNullTokenOpts.headers) "Authorization" = false ∧
    hasHeader (buildHeaders sampleClient cleanNullTokenOpts) "Authorization" = false :=
  ⟨rfl, (claim3_token_resolution sampleClient cleanNullTokenOpts rfl).1 rfl⟩

end Postgrest
